import Mathlib

/-!
Verification of the cdk-constructs repository: a shallow embedding of the
two policy modules (`SecureWebsite` in `lib/constructs` and
`AccountConfigStack` in `account-config/lib/account-config-stack.ts`),
together with theorems about their resolution behaviour.

Conventions of the embedding:
- TypeScript optional fields become `Option` fields; JavaScript truthiness
  of the `||` operator is modelled explicitly (`none` and the empty string
  and the number 0 are falsy; arrays and objects are always truthy).
- CloudFormation tokens (generated identifiers such as bucket names,
  distribution ids, ARNs) are modelled as opaque string constants: their
  concrete value is resolved by the provisioning engine, the policy only
  passes them around.
- Names follow the source, except where the development style requires a
  different spelling (noted at the definition).
-/

namespace CdkConstructs

/-- A JSON value, as produced by parsing the configuration source
(`JSON.parse`).  Objects and arrays keep their own key/element order. -/
inductive JsonValue where
  | str : String → JsonValue
  | num : Int → JsonValue
  | bool : Bool → JsonValue
  | null : JsonValue
  | arr : List JsonValue → JsonValue
  | obj : List (String × JsonValue) → JsonValue
deriving Repr

/-- Serialization of a JSON value to text, modelling `JSON.stringify` on
the value shapes the configuration records may hold. -/
def JsonValue.stringify : JsonValue → String
  | .str s => "\"" ++ s ++ "\""
  | .num n => toString n
  | .bool b => if b then "true" else "false"
  | .null => "null"
  | .arr xs => "[" ++ String.intercalate "," (xs.attach.map fun v => v.1.stringify) ++ "]"
  | .obj kvs =>
      "\x7b" ++
        String.intercalate ","
          (kvs.attach.map fun kv => "\"" ++ kv.1.1 ++ "\":" ++ kv.1.2.stringify) ++
      "\x7d"
termination_by v => sizeOf v
decreasing_by
  · have := List.sizeOf_lt_of_mem v.2
    simp only [JsonValue.arr.sizeOf_spec]
    omega
  · have h := List.sizeOf_lt_of_mem kv.2
    have h2 : sizeOf kv.1.2 < sizeOf kv.1 := by
      rcases kv with ⟨⟨a, b⟩, hm⟩
      simp
    simp only [JsonValue.obj.sizeOf_spec]
    omega

/-- One account record of the configuration source: an ordered key/value
record (`AccountConfig` in the source). -/
abbrev AccountConfig := List (String × JsonValue)

/-- The parsed configuration source: a mapping from account-id string to
account record, in the document's own key order. -/
abbrev AccountsContext := List (String × AccountConfig)

/-- Key lookup in an ordered record, modelling the JavaScript property
access `record[key]` (first binding wins). -/
def lookupKey {α : Type} (record : List (String × α)) (key : String) : Option α :=
  match record with
  | [] => none
  | (k, v) :: rest => if k = key then some v else lookupKey rest key

/-- Props of `AccountConfigStack`.  `contextFilePath` selects which file is
read; the parsed document itself is passed to the resolver, so the path
does not appear here.  `parameterBase` models the source's
parameter-prefix prop. -/
structure AccountConfigStackProps where
  accountId : Option String
  parameterBase : Option String
deriving Repr, DecidableEq

/-- One published Parameter Store entry (`ssm.StringParameter`): the
record key it came from, the fully qualified parameter name and the
serialized value. -/
structure ParameterEntry where
  key : String
  parameterName : String
  stringValue : String
deriving Repr, DecidableEq

/-- The resolved state of an `AccountConfigStack`: the selected record,
the resolved account id and prefix, and the published entries. -/
structure ResolvedAccountConfig where
  accountId : String
  parameterBase : String
  config : AccountConfig
  parameters : List ParameterEntry
deriving Repr

/-- JavaScript `a || b` on an optional string: `undefined` and the empty
string are falsy. -/
def orElseStr (a : Option String) (b : String) : String :=
  match a with
  | some s => if s = "" then b else s
  | none => b

/-- The value a record value is published as:
`typeof value === 'string' ? value : JSON.stringify(value)`. -/
def publishedString (v : JsonValue) : String :=
  match v with
  | .str s => s
  | v => v.stringify

/-- `uploadConfigToParameterStore`: one parameter per key of the selected
record, at path `{prefix}/{key}`, in the record's own key order. -/
def uploadConfigToParameterStore (base : String) (config : AccountConfig) :
    List ParameterEntry :=
  config.map fun kv =>
    { key := kv.1
      parameterName := base ++ "/" ++ kv.1
      stringValue := publishedString kv.2 }

/-- The `AccountConfigStack` constructor, from the parsed configuration
source.  `stackAccount` is `this.account`, the account the stack deploys
into. -/
def resolveAccountConfig (accountsContext : AccountsContext)
    (props : AccountConfigStackProps) (stackAccount : String) :
    Except String ResolvedAccountConfig :=
  let accountId := orElseStr props.accountId stackAccount
  let base := orElseStr props.parameterBase ("/account-config/" ++ accountId)
  match lookupKey accountsContext accountId with
  | none =>
      .error ("No configuration found for account ID \x27" ++ accountId ++
        "\x27. Available accounts: " ++
        String.intercalate ", " (accountsContext.map Prod.fst))
  | some config =>
      .ok { accountId := accountId
            parameterBase := base
            config := config
            parameters := uploadConfigToParameterStore base config }

/-- `getConfigValue(key, defaultValue?)`:
`this.config[key] !== undefined ? this.config[key] : defaultValue`.
The optional default is `none` when the caller supplies no default, and
the result is `none` exactly when the overall JavaScript expression is
`undefined`. -/
def getConfigValue (config : AccountConfig) (key : String)
    (defaultValue : Option JsonValue) : Option JsonValue :=
  match lookupKey config key with
  | some v => some v
  | none => defaultValue

/-- `hasConfig(key)`. -/
def hasConfig (config : AccountConfig) (key : String) : Bool :=
  (lookupKey config key).isSome

/-- `getAllConfigKeys()`. -/
def getAllConfigKeys (config : AccountConfig) : List String :=
  config.map Prod.fst

/-! ## SecureWebsite -/

/-- `RemovalPolicy` (aws-cdk-lib). -/
inductive RemovalPolicy where
  | destroy
  | retain
deriving Repr, DecidableEq

/-- `cloudfront.PriceClass`. -/
inductive PriceClass where
  | priceClass100
  | priceClass200
  | priceClassAll
deriving Repr, DecidableEq

/-- The optional `configuration` payload of a `WafRule`. -/
structure WafRuleConfiguration where
  limit : Option Int := none
  countryCodes : Option (List String) := none
  name : Option String := none
  ipAddresses : Option (List String) := none
deriving Repr, DecidableEq

/-- A `WafRule` spec entry.  `action` and `ruleType` are string literals
in the source (`'ALLOW' | 'BLOCK' | 'COUNT'`,
`'RATE_LIMIT' | 'GEO_BLOCK' | 'IP_SET' | 'MANAGED_RULE'`); they are kept
as strings here because the translator functions accept any string and
have explicit default branches. -/
structure WafRule where
  name : String
  priority : Int
  action : String
  ruleType : String
  configuration : Option WafRuleConfiguration := none
deriving Repr, DecidableEq

/-- A resolved WAF rule action property (`{allow:{}}`, `{block:{}}`,
`{count:{}}`). -/
inductive WafActionProp where
  | allow
  | block
  | count
deriving Repr, DecidableEq

/-- A generated-identifier token, such as `resource.attrArn`: opaque to
the policy, resolved by the provisioning engine. -/
def attrArnToken (logicalId : String) : String :=
  "Token[" ++ logicalId ++ ".Arn]"

/-- A declared `wafv2.CfnIPSet` sub-resource. -/
structure IPSetResource where
  logicalId : String
  scope : String
  ipAddressVersion : String
  addresses : List String
deriving Repr, DecidableEq

/-- A resolved WAF rule match statement. -/
inductive WafStatement where
  | rateBased (limit : Int) (aggregateKeyType : String)
  | managedRuleGroup (vendorName : String) (name : String)
  | geoMatch (countryCodes : List String)
  | ipSetReference (arn : String)
deriving Repr, DecidableEq

/-- JavaScript `a || b` on an optional number: `undefined` and `0` are
falsy. -/
def orElseInt (a : Option Int) (b : Int) : Int :=
  match a with
  | some n => if n = 0 then b else n
  | none => b

/-- `createWafAction`: total over all strings, with a default branch
mapping any unrecognized literal to `{allow:{}}`. -/
def createWafAction (action : String) : WafActionProp :=
  match action with
  | "ALLOW" => .allow
  | "BLOCK" => .block
  | "COUNT" => .count
  | _ => .allow

/-- `createWafStatement`: the match statement for one rule, together with
the `CfnIPSet` sub-resources it declares (one for an `IP_SET` rule, none
otherwise).  The `||` defaults of the source are modelled with JavaScript
falsiness: a numeric limit of `0` and an empty string name fall back to
the default, while an empty array is truthy and is kept. -/
def createWafStatement (rule : WafRule) : WafStatement × List IPSetResource :=
  match rule.ruleType with
  | "RATE_LIMIT" =>
      (.rateBased (orElseInt (rule.configuration.bind fun c => c.limit) 2000) "IP", [])
  | "MANAGED_RULE" =>
      (.managedRuleGroup "AWS"
        (orElseStr (rule.configuration.bind fun c => c.name)
          "AWSManagedRulesCommonRuleSet"), [])
  | "GEO_BLOCK" =>
      (.geoMatch ((rule.configuration.bind fun c => c.countryCodes).getD ["CN", "RU"]), [])
  | "IP_SET" =>
      let ipSet : IPSetResource :=
        { logicalId := "IPSet-" ++ rule.name
          scope := "CLOUDFRONT"
          ipAddressVersion := "IPV4"
          addresses := (rule.configuration.bind fun c => c.ipAddresses).getD [] }
      (.ipSetReference (attrArnToken ipSet.logicalId), [ipSet])
  | _ =>
      (.managedRuleGroup "AWS" "AWSManagedRulesCommonRuleSet", [])

/-- A `visibilityConfig` property set. -/
structure VisibilityConfig where
  sampledRequestsEnabled : Bool
  cloudWatchMetricsEnabled : Bool
  metricName : String
deriving Repr, DecidableEq

/-- One entry of a web ACL's `rules` property. -/
structure WebAclRuleProperty where
  name : String
  priority : Int
  action : WafActionProp
  statement : WafStatement
  visibilityConfig : VisibilityConfig
deriving Repr, DecidableEq

/-- A declared `wafv2.CfnWebACL`, together with the IP-set sub-resources
declared while translating its rules. -/
structure WebAcl where
  scope : String
  defaultAction : WafActionProp
  rules : List WebAclRuleProperty
  visibilityConfig : VisibilityConfig
  ipSets : List IPSetResource
deriving Repr, DecidableEq

/-- `createWebAcl`: translate each `WafRule` to one web ACL rule, with
sampling and metrics enabled and the rule's name as metric name. -/
def createWebAcl (rules : List WafRule) : WebAcl :=
  { scope := "CLOUDFRONT"
    defaultAction := .allow
    rules := rules.map fun rule =>
      { name := rule.name
        priority := rule.priority
        action := createWafAction rule.action
        statement := (createWafStatement rule).1
        visibilityConfig :=
          { sampledRequestsEnabled := true
            cloudWatchMetricsEnabled := true
            metricName := rule.name } }
    visibilityConfig :=
      { sampledRequestsEnabled := true
        cloudWatchMetricsEnabled := true
        metricName := "SecureWebsiteWAF" }
    ipSets := (rules.map fun rule => (createWafStatement rule).2).flatten }

/-- `getDefaultWafRules`: the built-in default rule set. -/
def getDefaultWafRules : List WafRule :=
  [ { name := "AWSManagedRulesCommonRuleSet"
      priority := 1
      action := "BLOCK"
      ruleType := "MANAGED_RULE"
      configuration := some { name := some "AWSManagedRulesCommonRuleSet" } },
    { name := "AWSManagedRulesKnownBadInputsRuleSet"
      priority := 2
      action := "BLOCK"
      ruleType := "MANAGED_RULE"
      configuration := some { name := some "AWSManagedRulesKnownBadInputsRuleSet" } },
    { name := "AWSManagedRulesLinuxRuleSet"
      priority := 3
      action := "BLOCK"
      ruleType := "MANAGED_RULE"
      configuration := some { name := some "AWSManagedRulesLinuxRuleSet" } },
    { name := "RateLimitRule"
      priority := 10
      action := "BLOCK"
      ruleType := "RATE_LIMIT"
      configuration := some { limit := some 2000 } } ]

/-- Splitting a character list at every occurrence of a separator
character; a separator at either end or two adjacent separators produce
empty segments, as JavaScript `split` does. -/
def splitChars (sep : Char) : List Char → List (List Char)
  | [] => [[]]
  | c :: rest =>
      match splitChars sep rest with
      | [] => [[]]
      | w :: ws => if c = sep then [] :: w :: ws else (c :: w) :: ws

/-- JavaScript `s.split(sep)` for a one-character separator. -/
def jsSplit (s : String) (sep : Char) : List String :=
  (splitChars sep s.data).map String.mk

/-- `getApexDomain`: split on dots; with at least two labels, join the
last two back with a dot, else return the domain unchanged. -/
def getApexDomain (domainName : String) : String :=
  let parts := jsSplit domainName '.'
  if parts.length ≥ 2 then
    String.intercalate "." (parts.drop (parts.length - 2))
  else
    domainName

/-- `SecureWebsiteProps`. -/
structure SecureWebsiteProps where
  domainName : String
  account : Option String := none
  hostedZoneId : Option String := none
  bucketName : Option String := none
  distributionComment : Option String := none
  errorDocument : Option String := none
  indexDocument : Option String := none
  enableWaf : Option Bool := none
  wafRules : Option (List WafRule) := none
  codeSourcePath : Option String := none
  priceClass : Option PriceClass := none
  removalPolicy : Option RemovalPolicy := none
  subjectAlternativeNames : Option (List String) := none
  enableLogging : Option Bool := none
  logsBucketName : Option String := none
deriving Repr, DecidableEq

/-- JavaScript truthiness test of an optional string (used for ternary
and `if` guards): `undefined` and the empty string are falsy. -/
def truthyStr (a : Option String) : Option String :=
  match a with
  | some s => if s = "" then none else some s
  | none => none

/-- How the hosted zone is obtained: from an explicit id
(`HostedZone.fromHostedZoneId`) or by apex-domain lookup
(`HostedZone.fromLookup`). -/
inductive HostedZoneRef where
  | fromId (id : String)
  | fromLookup (domainName : String)
deriving Repr, DecidableEq

/-- A declared `acm.Certificate`. -/
structure CertificateResource where
  domainName : String
  subjectAlternativeNames : Option (List String)
  validationZone : HostedZoneRef
deriving Repr, DecidableEq

/-- One S3 lifecycle rule. -/
structure LifecycleRule where
  id : String
  enabled : Bool
  expirationDays : Nat
deriving Repr, DecidableEq

/-- A declared `s3.Bucket`, restricted to the properties the construct
sets. -/
structure BucketResource where
  bucketName : Option String := none
  publicReadAccess : Bool := false
  blockPublicAccessAll : Bool := false
  removalPolicy : RemovalPolicy
  autoDeleteObjects : Bool := false
  versioned : Bool := false
  s3ManagedEncryption : Bool := false
  lifecycleRules : List LifecycleRule := []
deriving Repr, DecidableEq

/-- A declared `cloudfront.S3OriginAccessControl`. -/
structure OriginAccessControlResource where
  description : String
deriving Repr, DecidableEq

/-- `cloudfront.ViewerProtocolPolicy`. -/
inductive ViewerProtocolPolicy where
  | redirectToHttps
  | allowAll
  | httpsOnly
deriving Repr, DecidableEq

/-- `cloudfront.AllowedMethods` values the construct uses. -/
inductive AllowedMethods where
  | allowGetHeadOptions
  | allowAll
deriving Repr, DecidableEq

/-- `cloudfront.CachePolicy` references the construct uses. -/
inductive CachePolicyRef where
  | cachingOptimized
  | cachingDisabled
deriving Repr, DecidableEq

/-- One CloudFront behavior's options, restricted to the properties the
construct sets. -/
structure BehaviorOptions where
  originLogicalId : String
  viewerProtocolPolicy : ViewerProtocolPolicy
  allowedMethods : AllowedMethods
  cacheGetHeadOptions : Bool := false
  compress : Bool := false
  cachePolicy : Option CachePolicyRef := none
  corsS3OriginRequestPolicy : Bool := false
  securityHeadersPolicy : Bool := false
deriving Repr, DecidableEq

/-- One `errorResponses` entry; `ttlSeconds` models the `Duration`. -/
structure ErrorResponse where
  httpStatus : Nat
  responseHttpStatus : Nat
  responsePagePath : String
  ttlSeconds : Nat
deriving Repr, DecidableEq

/-- A declared `cloudfront.Distribution`, restricted to the properties
the construct sets.  `logFileNameStart` models the log-file key prefix
property. -/
structure DistributionResource where
  defaultBehavior : BehaviorOptions
  additionalBehaviors : List (String × BehaviorOptions)
  domainNames : List String
  certificate : CertificateResource
  defaultRootObject : String
  errorResponses : List ErrorResponse
  priceClass : PriceClass
  comment : String
  webAclId : Option String
  enableLogging : Option Bool
  logBucket : Option BucketResource
  logFileNameStart : String
  logIncludesCookies : Bool
deriving Repr, DecidableEq

/-- The bucket-policy statement granting CloudFront read access. -/
structure PolicyStatementModel where
  effect : String
  principalService : String
  actions : List String
  resources : List String
  sourceArnCondition : String
deriving Repr, DecidableEq

/-- A Route53 alias record (A or AAAA variant, identical shape). -/
structure RecordResource where
  zone : HostedZoneRef
  recordName : String
  aliasToDistribution : Bool
deriving Repr, DecidableEq

/-- A declared `s3deploy.BucketDeployment`. -/
structure DeploymentResource where
  sourcePath : String
  destinationLogicalId : String
  distributionPaths : List String
  prune : Bool
  retainOnDelete : Bool
deriving Repr, DecidableEq

/-- One `CfnOutput`. -/
structure OutputEntry where
  id : String
  value : String
  description : String
deriving Repr, DecidableEq

/-- The token for `this.bucket.bucketName` and friends. -/
def bucketNameToken (logicalId : String) : String :=
  "Token[" ++ logicalId ++ ".Name]"

/-- The token for `this.distribution.distributionId`. -/
def distributionIdToken : String :=
  "Token[Distribution.Id]"

/-- The token for `this.certificate.certificateArn`. -/
def certificateArnToken : String :=
  attrArnToken "Certificate"

/-- The token for `this.webAcl.attrArn`. -/
def webAclArnToken : String :=
  attrArnToken "WebACL"

/-- `createOutputs`: the fixed outputs, plus a web-ACL ARN output only
when a web ACL was declared and a logs-bucket output only when logging
was enabled. -/
def createOutputs (props : SecureWebsiteProps) (webAcl : Option WebAcl)
    (logsBucket : Option BucketResource) : List OutputEntry :=
  [ { id := "WebsiteUrl"
      value := "https://" ++ props.domainName
      description := "Website URL" },
    { id := "BucketName"
      value := bucketNameToken "WebsiteBucket"
      description := "S3 bucket name for website content" },
    { id := "DistributionId"
      value := distributionIdToken
      description := "CloudFront distribution ID" },
    { id := "CertificateArn"
      value := certificateArnToken
      description := "ACM certificate ARN" } ]
  ++ (match webAcl with
      | some _ =>
          [{ id := "WebAclArn"
             value := webAclArnToken
             description := "WAF WebACL ARN" }]
      | none => [])
  ++ (match logsBucket with
      | some _ =>
          [{ id := "LogsBucketName"
             value := bucketNameToken "LogsBucket"
             description := "CloudFront logs bucket name" }]
      | none => [])

/-- The fully expanded resource set of one `SecureWebsite` construct. -/
structure SecureWebsiteResult where
  account : String
  hostedZone : HostedZoneRef
  certificate : CertificateResource
  bucket : BucketResource
  logsBucket : Option BucketResource
  originAccessControl : OriginAccessControlResource
  webAcl : Option WebAcl
  distribution : DistributionResource
  bucketPolicyStatements : List PolicyStatementModel
  aRecord : RecordResource
  aaaaRecord : RecordResource
  deployment : Option DeploymentResource
  outputs : List OutputEntry
deriving Repr, DecidableEq

/-- The `SecureWebsite` constructor: expansion of one spec into the full
resource set, in the source's declaration order. -/
def buildSecureWebsite (props : SecureWebsiteProps) : SecureWebsiteResult :=
  let account := orElseStr props.account "*"
  let hostedZone : HostedZoneRef :=
    match truthyStr props.hostedZoneId with
    | some zid => .fromId zid
    | none => .fromLookup (getApexDomain props.domainName)
  let certificate : CertificateResource :=
    { domainName := props.domainName
      subjectAlternativeNames := props.subjectAlternativeNames
      validationZone := hostedZone }
  let bucket : BucketResource :=
    { bucketName := props.bucketName
      publicReadAccess := false
      blockPublicAccessAll := true
      removalPolicy := props.removalPolicy.getD .destroy
      autoDeleteObjects := props.removalPolicy == some .destroy
      versioned := true
      s3ManagedEncryption := true }
  let logsBucket : Option BucketResource :=
    if props.enableLogging = some true then
      some
        { bucketName := props.logsBucketName
          publicReadAccess := false
          blockPublicAccessAll := true
          removalPolicy := props.removalPolicy.getD .destroy
          autoDeleteObjects := props.removalPolicy == some .destroy
          lifecycleRules := [{ id := "DeleteOldLogs", enabled := true, expirationDays := 90 }] }
    else none
  let originAccessControl : OriginAccessControlResource :=
    { description := "OAC for " ++ props.domainName }
  let webAcl : Option WebAcl :=
    if props.enableWaf = some false then none
    else some (createWebAcl (props.wafRules.getD getDefaultWafRules))
  let distribution : DistributionResource :=
    { defaultBehavior :=
        { originLogicalId := "WebsiteBucket"
          viewerProtocolPolicy := .redirectToHttps
          allowedMethods := .allowGetHeadOptions
          cacheGetHeadOptions := true
          compress := true
          cachePolicy := some .cachingOptimized
          corsS3OriginRequestPolicy := true
          securityHeadersPolicy := true }
      additionalBehaviors :=
        [("/api/*",
          { originLogicalId := "WebsiteBucket"
            viewerProtocolPolicy := .redirectToHttps
            allowedMethods := .allowAll
            cachePolicy := some .cachingDisabled })]
      domainNames := props.domainName :: (props.subjectAlternativeNames.getD [])
      certificate := certificate
      defaultRootObject := orElseStr props.indexDocument "index.html"
      errorResponses :=
        [ { httpStatus := 403
            responseHttpStatus := 200
            responsePagePath := "/" ++ orElseStr props.indexDocument "index.html"
            ttlSeconds := 300 },
          { httpStatus := 404
            responseHttpStatus := 200
            responsePagePath := "/" ++ orElseStr props.indexDocument "index.html"
            ttlSeconds := 300 } ]
      priceClass := props.priceClass.getD .priceClass100
      comment := orElseStr props.distributionComment ("Secure website for " ++ props.domainName)
      webAclId := webAcl.map fun _ => webAclArnToken
      enableLogging := props.enableLogging
      logBucket := logsBucket
      logFileNameStart := "cloudfront-logs/"
      logIncludesCookies := true }
  let bucketPolicyStatements : List PolicyStatementModel :=
    [ { effect := "Allow"
        principalService := "cloudfront.amazonaws.com"
        actions := ["s3:GetObject"]
        resources := [attrArnToken "WebsiteBucket" ++ "/*"]
        sourceArnCondition :=
          "arn:aws:cloudfront::" ++ account ++ ":distribution/" ++ distributionIdToken } ]
  let aRecord : RecordResource :=
    { zone := hostedZone
      recordName := props.domainName
      aliasToDistribution := true }
  let aaaaRecord : RecordResource :=
    { zone := hostedZone
      recordName := props.domainName
      aliasToDistribution := true }
  let deployment : Option DeploymentResource :=
    match truthyStr props.codeSourcePath with
    | some p =>
        some
          { sourcePath := p
            destinationLogicalId := "WebsiteBucket"
            distributionPaths := ["/*"]
            prune := true
            retainOnDelete := false }
    | none => none
  { account := account
    hostedZone := hostedZone
    certificate := certificate
    bucket := bucket
    logsBucket := logsBucket
    originAccessControl := originAccessControl
    webAcl := webAcl
    distribution := distribution
    bucketPolicyStatements := bucketPolicyStatements
    aRecord := aRecord
    aaaaRecord := aaaaRecord
    deployment := deployment
    outputs := createOutputs props webAcl logsBucket }

/-! ## Theorems -/

/-- Helper: when no web ACL is passed to the output projection, none of
the produced outputs is the web-ACL ARN output. -/
theorem createOutputs_none_no_webacl (props : SecureWebsiteProps)
    (logsBucket : Option BucketResource) :
    ∀ o ∈ createOutputs props none logsBucket, o.id ≠ "WebAclArn" := by
  intro o ho
  cases logsBucket <;>
    simp only [createOutputs, List.mem_append, List.mem_singleton,
      List.mem_cons, List.not_mem_nil, or_false] at ho
  · rcases ho with rfl | rfl | rfl | rfl <;> simp
  · rcases ho with (rfl | rfl | rfl | rfl) | rfl <;> simp

/-- Claim C1 counterexample: a spec with `removalPolicy` unset resolves
the content store's retention policy to destroy, yet `autoDeleteObjects`
is `false` — the store's objects are not auto-purged on teardown, so the
claimed implications "resolved destroy implies auto-purge" and "unset
implies auto-purge" both fail at this input. -/
theorem claim_C1_counterexample :
    (buildSecureWebsite { domainName := "mysite.example.com" }).bucket.removalPolicy
        = RemovalPolicy.destroy ∧
    ¬ ((buildSecureWebsite { domainName := "mysite.example.com" }).bucket.autoDeleteObjects
        = true) :=
  ⟨rfl, fun h => Bool.noConfusion h⟩

/-- Claim C1 (amended): the primary content store's retention policy
defaults to destroy when the spec leaves it unset, and its objects are
auto-purged on teardown exactly when the spec explicitly sets the
retention policy to destroy (so an unset policy yields destroy retention
with auto-purge disabled, and retain yields surviving objects). -/
theorem claim_C1_amended (props : SecureWebsiteProps) :
    (buildSecureWebsite props).bucket.removalPolicy
        = props.removalPolicy.getD RemovalPolicy.destroy ∧
    ((buildSecureWebsite props).bucket.autoDeleteObjects = true ↔
        props.removalPolicy = some RemovalPolicy.destroy) := by
  refine ⟨rfl, ?_⟩
  show (props.removalPolicy == some RemovalPolicy.destroy) = true ↔ _
  simp

/-- Claim C5: the firewall action mapping is total over all strings:
`"ALLOW"`, `"BLOCK"`, `"COUNT"` map to the allow, block and count
actions, and every other string maps to the allow action rather than
failing. -/
theorem claim_C5_action_total :
    createWafAction "ALLOW" = WafActionProp.allow ∧
    createWafAction "BLOCK" = WafActionProp.block ∧
    createWafAction "COUNT" = WafActionProp.count ∧
    ∀ s : String, s ≠ "ALLOW" → s ≠ "BLOCK" → s ≠ "COUNT" →
      createWafAction s = WafActionProp.allow := by
  refine ⟨rfl, rfl, rfl, ?_⟩
  intro s h1 h2 h3
  unfold createWafAction
  split <;> simp_all

/-- Claim C5 witness: the mapping at the concrete unrecognized literal
`"LOG"` resolves to allow. -/
theorem claim_C5_witness :
    createWafAction "LOG" = WafActionProp.allow :=
  claim_C5_action_total.2.2.2 "LOG" (by decide) (by decide) (by decide)

/-- Claim C7: `getConfigValue` returns the raw stored value when the key
is present; when the key is absent it returns the supplied default, and
with no default it yields an absent result rather than raising an
error. -/
theorem claim_C7_lookup (config : AccountConfig) (key : String) :
    (∀ v, lookupKey config key = some v →
        ∀ d, getConfigValue config key d = some v) ∧
    (lookupKey config key = none →
        ∀ d, getConfigValue config key (some d) = some d) ∧
    (lookupKey config key = none → getConfigValue config key none = none) := by
  refine ⟨?_, ?_, ?_⟩ <;> intro h <;> simp_all [getConfigValue]

/-- Claim C7 witness: concrete lookups on the record
`{a: "x"}` — the present key returns the stored value ignoring the
default, the absent key returns the default, and the absent key with no
default returns the absent result. -/
theorem claim_C7_witness :
    getConfigValue [("a", JsonValue.str "x")] "a" (some (JsonValue.str "d"))
        = some (JsonValue.str "x") ∧
    getConfigValue [("a", JsonValue.str "x")] "b" (some (JsonValue.str "d"))
        = some (JsonValue.str "d") ∧
    getConfigValue [("a", JsonValue.str "x")] "b" none = none :=
  ⟨(claim_C7_lookup [("a", JsonValue.str "x")] "a").1 (JsonValue.str "x") rfl _,
   (claim_C7_lookup [("a", JsonValue.str "x")] "b").2.1 rfl _,
   (claim_C7_lookup [("a", JsonValue.str "x")] "b").2.2 rfl⟩

/-- Claim C9: the `errorDocument` prop is never read — two specs
differing only in it expand to identical resource sets — and the 403 and
404 error responses always serve the configured index document (default
`index.html`) with a 5-minute (300-second) cache lifetime. -/
theorem claim_C9_errorDocument_unused (props : SecureWebsiteProps)
    (e e2 : Option String) :
    buildSecureWebsite { props with errorDocument := e } =
        buildSecureWebsite { props with errorDocument := e2 } ∧
    (buildSecureWebsite props).distribution.errorResponses =
      [ { httpStatus := 403
          responseHttpStatus := 200
          responsePagePath := "/" ++ orElseStr props.indexDocument "index.html"
          ttlSeconds := 300 },
        { httpStatus := 404
          responseHttpStatus := 200
          responsePagePath := "/" ++ orElseStr props.indexDocument "index.html"
          ttlSeconds := 300 } ] :=
  ⟨rfl, rfl⟩

/-- Claim C2: when the spec omits `wafRules` and does not set `enableWaf`
to `false`, the built firewall carries exactly the four built-in default
rules, with priorities 1, 2, 3, 10 in that order: three managed rule
groups (common, known-bad-inputs, Linux) each with block action, plus a
rate-limit rule with ceiling 2000 and block action. -/
theorem claim_C2_default_firewall (props : SecureWebsiteProps)
    (hw : props.wafRules = none) (he : props.enableWaf ≠ some false) :
    (buildSecureWebsite props).webAcl = some (createWebAcl getDefaultWafRules) ∧
    (createWebAcl getDefaultWafRules).rules =
      [ { name := "AWSManagedRulesCommonRuleSet"
          priority := 1
          action := WafActionProp.block
          statement := WafStatement.managedRuleGroup "AWS" "AWSManagedRulesCommonRuleSet"
          visibilityConfig :=
            { sampledRequestsEnabled := true
              cloudWatchMetricsEnabled := true
              metricName := "AWSManagedRulesCommonRuleSet" } },
        { name := "AWSManagedRulesKnownBadInputsRuleSet"
          priority := 2
          action := WafActionProp.block
          statement := WafStatement.managedRuleGroup "AWS" "AWSManagedRulesKnownBadInputsRuleSet"
          visibilityConfig :=
            { sampledRequestsEnabled := true
              cloudWatchMetricsEnabled := true
              metricName := "AWSManagedRulesKnownBadInputsRuleSet" } },
        { name := "AWSManagedRulesLinuxRuleSet"
          priority := 3
          action := WafActionProp.block
          statement := WafStatement.managedRuleGroup "AWS" "AWSManagedRulesLinuxRuleSet"
          visibilityConfig :=
            { sampledRequestsEnabled := true
              cloudWatchMetricsEnabled := true
              metricName := "AWSManagedRulesLinuxRuleSet" } },
        { name := "RateLimitRule"
          priority := 10
          action := WafActionProp.block
          statement := WafStatement.rateBased 2000 "IP"
          visibilityConfig :=
            { sampledRequestsEnabled := true
              cloudWatchMetricsEnabled := true
              metricName := "RateLimitRule" } } ] := by
  constructor
  · show (if props.enableWaf = some false then none
          else some (createWebAcl (props.wafRules.getD getDefaultWafRules)))
        = some (createWebAcl getDefaultWafRules)
    rw [hw, if_neg he]
    rfl
  · rfl

/-- Claim C2 witness: the minimal spec (domain name only) gets the
default firewall with the four built-in rules. -/
theorem claim_C2_witness :
    (buildSecureWebsite { domainName := "mysite.example.com" }).webAcl
      = some (createWebAcl getDefaultWafRules) :=
  (claim_C2_default_firewall { domainName := "mysite.example.com" } rfl
    (by decide)).1

/-- Claim C3: resolution publishes exactly one entry per key of the
selected record, at path prefix-slash-key, with string values passed
through unchanged and non-string values serialized first; on the source
where account 123456789012 maps to stage=dev, zone=dev.example.com, the
default prefix yields exactly the two entries
`/account-config/123456789012/stage` and
`/account-config/123456789012/zone`, and `getConfigValue("stage")`
returns `"dev"`. -/
theorem claim_C3_publication :
    (∀ (ctx : AccountsContext) (props : AccountConfigStackProps)
        (stackAccount : String) (r : ResolvedAccountConfig),
        resolveAccountConfig ctx props stackAccount = .ok r →
        r.parameters = r.config.map fun kv =>
          ({ key := kv.1
             parameterName := r.parameterBase ++ "/" ++ kv.1
             stringValue := publishedString kv.2 } : ParameterEntry)) ∧
    (∀ s, publishedString (JsonValue.str s) = s) ∧
    resolveAccountConfig
        [("123456789012",
          [("stage", JsonValue.str "dev"), ("zone", JsonValue.str "dev.example.com")])]
        { accountId := some "123456789012", parameterBase := none } "000000000000"
      = .ok
          { accountId := "123456789012"
            parameterBase := "/account-config/123456789012"
            config := [("stage", JsonValue.str "dev"), ("zone", JsonValue.str "dev.example.com")]
            parameters :=
              [ { key := "stage"
                  parameterName := "/account-config/123456789012/stage"
                  stringValue := "dev" },
                { key := "zone"
                  parameterName := "/account-config/123456789012/zone"
                  stringValue := "dev.example.com" } ] } ∧
    getConfigValue
        [("stage", JsonValue.str "dev"), ("zone", JsonValue.str "dev.example.com")]
        "stage" none
      = some (JsonValue.str "dev") := by
  refine ⟨?_, fun s => rfl, rfl, rfl⟩
  intro ctx props stackAccount r h
  simp only [resolveAccountConfig] at h
  split at h
  · simp at h
  · injection h with h
    subst h
    rfl

/-- Claim C3 witness: the general publication shape instantiated at the
concrete source of the claim. -/
theorem claim_C3_witness :
    ({ accountId := "123456789012"
       parameterBase := "/account-config/123456789012"
       config := [("stage", JsonValue.str "dev"), ("zone", JsonValue.str "dev.example.com")]
       parameters :=
         [ { key := "stage"
             parameterName := "/account-config/123456789012/stage"
             stringValue := "dev" },
           { key := "zone"
             parameterName := "/account-config/123456789012/zone"
             stringValue := "dev.example.com" } ] } : ResolvedAccountConfig).parameters
      = ({ accountId := "123456789012"
           parameterBase := "/account-config/123456789012"
           config := [("stage", JsonValue.str "dev"), ("zone", JsonValue.str "dev.example.com")]
           parameters :=
             [ { key := "stage"
                 parameterName := "/account-config/123456789012/stage"
                 stringValue := "dev" },
               { key := "zone"
                 parameterName := "/account-config/123456789012/zone"
                 stringValue := "dev.example.com" } ] } : ResolvedAccountConfig).config.map
          (fun kv =>
            ({ key := kv.1
               parameterName := "/account-config/123456789012" ++ "/" ++ kv.1
               stringValue := publishedString kv.2 } : ParameterEntry)) :=
  claim_C3_publication.1
    [("123456789012",
      [("stage", JsonValue.str "dev"), ("zone", JsonValue.str "dev.example.com")])]
    { accountId := some "123456789012", parameterBase := none } "000000000000" _ rfl

/-- Claim C4: resolving an account id absent from the parsed mapping
fails with an account-not-found error whose message lists the available
account ids; in particular resolving 999999999999 against a source
containing only 123456789012 fails with a message listing
123456789012. -/
theorem claim_C4_account_not_found :
    (∀ (ctx : AccountsContext) (props : AccountConfigStackProps)
        (stackAccount : String),
        lookupKey ctx (orElseStr props.accountId stackAccount) = none →
        resolveAccountConfig ctx props stackAccount =
          .error ("No configuration found for account ID \x27"
            ++ orElseStr props.accountId stackAccount
            ++ "\x27. Available accounts: "
            ++ String.intercalate ", " (ctx.map Prod.fst))) ∧
    resolveAccountConfig
        [("123456789012",
          [("stage", JsonValue.str "dev"), ("zone", JsonValue.str "dev.example.com")])]
        { accountId := some "999999999999", parameterBase := none } "000000000000"
      = .error
          "No configuration found for account ID \x27999999999999\x27. Available accounts: 123456789012" := by
  refine ⟨?_, rfl⟩
  intro ctx props stackAccount h
  unfold resolveAccountConfig
  simp only [h]

/-- Claim C4 witness: the general error shape instantiated at the
concrete source and absent account id of the claim. -/
theorem claim_C4_witness :
    resolveAccountConfig
        [("123456789012",
          [("stage", JsonValue.str "dev"), ("zone", JsonValue.str "dev.example.com")])]
        { accountId := some "999999999999", parameterBase := none } "111111111111"
      = .error ("No configuration found for account ID \x27"
          ++ orElseStr (some "999999999999") "111111111111"
          ++ "\x27. Available accounts: "
          ++ String.intercalate ", " ["123456789012"]) :=
  claim_C4_account_not_found.1
    [("123456789012",
      [("stage", JsonValue.str "dev"), ("zone", JsonValue.str "dev.example.com")])]
    { accountId := some "999999999999", parameterBase := none } "111111111111" rfl

/-- Claim C6: with `enableWaf` explicitly `false`, the expansion declares
no web ACL, the distribution carries no web-ACL association, and the
output projection contains no firewall reference. -/
theorem claim_C6_waf_disabled (props : SecureWebsiteProps)
    (h : props.enableWaf = some false) :
    (buildSecureWebsite props).webAcl = none ∧
    (buildSecureWebsite props).distribution.webAclId = none ∧
    ∀ o ∈ (buildSecureWebsite props).outputs, o.id ≠ "WebAclArn" := by
  refine ⟨?_, ?_, ?_⟩
  · show (if props.enableWaf = some false then none
          else some (createWebAcl (props.wafRules.getD getDefaultWafRules))) = none
    exact if_pos h
  · show ((if props.enableWaf = some false then (none : Option WebAcl)
           else some (createWebAcl (props.wafRules.getD getDefaultWafRules))).map
          fun _ => webAclArnToken) = none
    rw [if_pos h]
    rfl
  · have hout : (buildSecureWebsite props).outputs
        = createOutputs props none ((buildSecureWebsite props).logsBucket) := by
      show createOutputs props
          (if props.enableWaf = some false then none
           else some (createWebAcl (props.wafRules.getD getDefaultWafRules)))
          ((buildSecureWebsite props).logsBucket) = _
      rw [if_pos h]
    rw [hout]
    exact createOutputs_none_no_webacl props _

/-- Claim C6 witness: the concrete spec with `enableWaf := false`
declares no web ACL and no distribution association. -/
theorem claim_C6_witness :
    (buildSecureWebsite { domainName := "mysite.example.com", enableWaf := some false }).webAcl
      = none ∧
    (buildSecureWebsite { domainName := "mysite.example.com", enableWaf := some false }).distribution.webAclId
      = none :=
  ⟨(claim_C6_waf_disabled { domainName := "mysite.example.com", enableWaf := some false } rfl).1,
   (claim_C6_waf_disabled { domainName := "mysite.example.com", enableWaf := some false } rfl).2.1⟩

/-- Claim C8: with no explicit zone identifier, the zone lookup uses the
apex domain, which is exactly the last two dot-separated labels of the
domain name; in particular `"www.myadvancedsite.example.com"` derives
apex `"example.com"`. -/
theorem claim_C8_apex (props : SecureWebsiteProps)
    (hz : props.hostedZoneId = none) :
    ((buildSecureWebsite props).hostedZone
        = HostedZoneRef.fromLookup (getApexDomain props.domainName)) ∧
    (∀ d : String, (jsSplit d '.').length ≥ 2 →
        getApexDomain d
          = String.intercalate "." (((jsSplit d '.').reverse.take 2).reverse)) ∧
    getApexDomain "www.myadvancedsite.example.com" = "example.com" := by
  refine ⟨?_, ?_, by rfl⟩
  · show (match truthyStr props.hostedZoneId with
          | some zid => HostedZoneRef.fromId zid
          | none => HostedZoneRef.fromLookup (getApexDomain props.domainName)) = _
    rw [hz]
    rfl
  · intro d hd
    show (if (jsSplit d '.').length ≥ 2 then
            String.intercalate "." ((jsSplit d '.').drop ((jsSplit d '.').length - 2))
          else d) = _
    rw [if_pos hd, ← List.rtake_eq_reverse_take_reverse]
    rfl

/-- Claim C8 witness: the concrete domain of the claim, with no zone id,
resolves through a lookup of its apex, and the apex is
`"example.com"`. -/
theorem claim_C8_witness :
    (buildSecureWebsite { domainName := "www.myadvancedsite.example.com" }).hostedZone
      = HostedZoneRef.fromLookup (getApexDomain "www.myadvancedsite.example.com") ∧
    getApexDomain "www.myadvancedsite.example.com" = "example.com" :=
  ⟨(claim_C8_apex { domainName := "www.myadvancedsite.example.com" } rfl).1,
   (claim_C8_apex { domainName := "www.myadvancedsite.example.com" } rfl).2.2⟩

/-- Claim C10: a rate-limit rule with an explicit limit of `0` resolves
to the default ceiling `2000` (JavaScript falsy fallback), a rule with a
nonzero explicit limit `n` resolves to ceiling exactly `n`, and no
resolved rate-based statement ever carries ceiling `0`. -/
theorem claim_C10_rate_limit :
    (∀ rule : WafRule, rule.ruleType = "RATE_LIMIT" →
      (((rule.configuration.bind fun c => c.limit) = some 0 →
          (createWafStatement rule).1 = WafStatement.rateBased 2000 "IP") ∧
       (∀ n : Int, n ≠ 0 → (rule.configuration.bind fun c => c.limit) = some n →
          (createWafStatement rule).1 = WafStatement.rateBased n "IP"))) ∧
    (∀ (rule : WafRule) (l : Int) (k : String),
        (createWafStatement rule).1 = WafStatement.rateBased l k → l ≠ 0) := by
  constructor
  · intro rule hr
    constructor
    · intro h0
      unfold createWafStatement
      rw [hr]
      simp [orElseInt, h0]
    · intro n hn h
      unfold createWafStatement
      rw [hr]
      simp [orElseInt, h, hn]
  · intro rule l k h
    unfold createWafStatement at h
    split at h <;> simp_all
    rcases h with ⟨hl, _⟩
    subst hl
    unfold orElseInt
    split
    · split <;> simp_all
    · simp

/-- Claim C10 witness: a concrete rate-limit rule with explicit limit
`0` resolves to ceiling `2000`, one with explicit limit `500` resolves
to ceiling `500`, and the former's ceiling is nonzero. -/
theorem claim_C10_witness :
    (createWafStatement
        { name := "R0", priority := 1, action := "BLOCK", ruleType := "RATE_LIMIT"
          configuration := some { limit := some 0 } }).1
      = WafStatement.rateBased 2000 "IP" ∧
    (createWafStatement
        { name := "R500", priority := 1, action := "BLOCK", ruleType := "RATE_LIMIT"
          configuration := some { limit := some 500 } }).1
      = WafStatement.rateBased 500 "IP" ∧
    (2000 : Int) ≠ 0 :=
  ⟨(claim_C10_rate_limit.1 _ rfl).1 rfl,
   (claim_C10_rate_limit.1 _ rfl).2 500 (by decide) rfl,
   claim_C10_rate_limit.2
     { name := "R0", priority := 1, action := "BLOCK", ruleType := "RATE_LIMIT"
       configuration := some { limit := some 0 } } 2000 "IP"
     ((claim_C10_rate_limit.1 _ rfl).1 rfl)⟩

end CdkConstructs
